import Mathlib

/-!
Verification development for the fence identity-broker core.

Shallow embedding of:
* `fence/config.py` — `nested_render` (scoped template substitution), the
  default/provided configuration merge, and the `Config` singleton;
* `fence/jwt/validate.py` — `validate_purpose` and `validate_jwt`;
* `fence/__init__.py` — `check_csrf`, `logout_endpoint`, and
  `_load_configuration_files`.

Python dictionaries are modelled as association lists; machine-level details
(Flask plumbing, network, the PyYAML scanner beyond plain scalars) are modelled
only as far as the verified properties touch them, as noted on each definition.
-/

set_option maxRecDepth 10000

mutual

/-- A YAML-equivalent configuration value: scalars and string-keyed mappings.
Mirrors what `yaml.safe_load` produces for the configuration documents the
code manipulates (sequences are not needed by any verified property and are
omitted from the model). -/
inductive Yaml where
  | str (s : String)
  | int (n : Int)
  | bool (b : Bool)
  | null
  | map (entries : YEntries)

/-- Entry list of a YAML mapping, in document order (Python dict iteration
order in the source). -/
inductive YEntries where
  | nil
  | cons (key : String) (value : Yaml) (rest : YEntries)

end

mutual

def Yaml.beq : Yaml → Yaml → Bool
  | .str a, .str b => a = b
  | .int a, .int b => a = b
  | .bool a, .bool b => a = b
  | .null, .null => true
  | .map a, .map b => YEntries.beq a b
  | _, _ => false

def YEntries.beq : YEntries → YEntries → Bool
  | .nil, .nil => true
  | .cons k v r, .cons k' v' r' => k = k' && Yaml.beq v v' && YEntries.beq r r'
  | _, _ => false

end

mutual

theorem Yaml.beqEqIff : ∀ a b : Yaml, Yaml.beq a b = true ↔ a = b
  | .str a, .str b => by simp [Yaml.beq]
  | .str _, .int _ => by simp [Yaml.beq]
  | .str _, .bool _ => by simp [Yaml.beq]
  | .str _, .null => by simp [Yaml.beq]
  | .str _, .map _ => by simp [Yaml.beq]
  | .int _, .str _ => by simp [Yaml.beq]
  | .int a, .int b => by simp [Yaml.beq]
  | .int _, .bool _ => by simp [Yaml.beq]
  | .int _, .null => by simp [Yaml.beq]
  | .int _, .map _ => by simp [Yaml.beq]
  | .bool _, .str _ => by simp [Yaml.beq]
  | .bool _, .int _ => by simp [Yaml.beq]
  | .bool a, .bool b => by simp [Yaml.beq]
  | .bool _, .null => by simp [Yaml.beq]
  | .bool _, .map _ => by simp [Yaml.beq]
  | .null, .str _ => by simp [Yaml.beq]
  | .null, .int _ => by simp [Yaml.beq]
  | .null, .bool _ => by simp [Yaml.beq]
  | .null, .null => by simp [Yaml.beq]
  | .null, .map _ => by simp [Yaml.beq]
  | .map a, .str _ => by simp [Yaml.beq]
  | .map a, .int _ => by simp [Yaml.beq]
  | .map a, .bool _ => by simp [Yaml.beq]
  | .map a, .null => by simp [Yaml.beq]
  | .map a, .map b => by
      simp [Yaml.beq, YEntries.entriesBeqEqIff a b]

theorem YEntries.entriesBeqEqIff : ∀ a b : YEntries, YEntries.beq a b = true ↔ a = b
  | .nil, .nil => by simp [YEntries.beq]
  | .nil, .cons _ _ _ => by simp [YEntries.beq]
  | .cons _ _ _, .nil => by simp [YEntries.beq]
  | .cons k v r, .cons k' v' r' => by
      simp [YEntries.beq, Yaml.beqEqIff v v', YEntries.entriesBeqEqIff r r', and_assoc]

end

instance : DecidableEq Yaml := fun a b =>
  decidable_of_iff (Yaml.beq a b = true) (Yaml.beqEqIff a b)

instance : DecidableEq YEntries := fun a b =>
  decidable_of_iff (YEntries.beq a b = true) (YEntries.entriesBeqEqIff a b)

/-- Association-list model of a Python `dict` with string keys. -/
abbrev Dict := List (String × Yaml)

/-- `k in d` for a Python dict. -/
def dictContains (d : Dict) (k : String) : Bool :=
  d.any (fun p => p.1 = k)

/-- `d.get(k)` / `d[k]` lookup (first matching entry). -/
def dictGet (d : Dict) (k : String) : Option Yaml :=
  (d.find? (fun p => p.1 = k)).map (fun p => p.2)

/-- `d[k] = v`: replace the value at the first entry with key `k`, keeping
its position, else append (Python dicts never hold a key twice, so this is
dict assignment). -/
def dictSet : Dict → String → Yaml → Dict
  | [], k, v => [(k, v)]
  | p :: rest, k, v => if p.1 = k then (k, v) :: rest else p :: dictSet rest k v

/-- `d.update(u)`: fold `dictSet` over the entries of `u`. -/
def dictUpdateList (d : Dict) (u : Dict) : Dict :=
  u.foldl (fun acc p => dictSet acc p.1 p.2) d

/-- `d.pop(k, None)` for each `k` in `ks`: remove those keys outright. -/
def dictPopKeys (d : Dict) (ks : List String) : Dict :=
  ks.foldl (fun acc k => acc.filter (fun p => !(p.1 = k))) d

/-- View a mapping's entries as a `Dict` (what `replacements.update(cfg)`
consumes). -/
def YEntries.toDict : YEntries → Dict
  | .nil => []
  | .cons k v rest => (k, v) :: rest.toDict

/-- Keys of a mapping, in order (what the pop loop iterates over). -/
def YEntries.keys : YEntries → List String
  | .nil => []
  | .cons k _ rest => k :: rest.keys

/-- The opening-brace character of a template marker. -/
def obr : Char := Char.ofNat 123

/-- The closing-brace character of a template marker. -/
def cbr : Char := Char.ofNat 125

/-- The percent sign (second character of a Jinja statement delimiter). -/
def pctChar : Char := Char.ofNat 37

/-- The hash sign (second character of a Jinja comment delimiter). -/
def hashChar : Char := Char.ofNat 35

/-- The apostrophe used by Python repr for strings. -/
def pyq : String := String.singleton (Char.ofNat 39)

mutual

/-- Python `str(value)` as the source applies it to a YAML scalar or mapping
(`Template(str(cfg))` in `nested_render`, and Jinja's rendering of a
substituted variable). -/
def pyStr : Yaml → String
  | .str s => s
  | .int n => toString n
  | .bool b => if b then "True" else "False"
  | .null => "None"
  | .map es => "\x7b" ++ pyReprEntries es ++ "\x7d"

/-- Python `repr` of a dict body (entries are comma-separated, string values
quoted). Reached only when a mapping value is substituted into a template. -/
def pyRepr : Yaml → String
  | .str s => pyq ++ s ++ pyq
  | .int n => toString n
  | .bool b => if b then "True" else "False"
  | .null => "None"
  | .map es => "\x7b" ++ pyReprEntries es ++ "\x7d"

def pyReprEntries : YEntries → String
  | .nil => ""
  | .cons k v .nil => pyq ++ k ++ pyq ++ ": " ++ pyRepr v
  | .cons k v (.cons k' v' rest) =>
      pyq ++ k ++ pyq ++ ": " ++ pyRepr v ++ ", "
        ++ pyReprEntries (.cons k' v' rest)

end

/-- Strip leading and trailing spaces (Jinja ignores whitespace around a
variable name inside a marker). -/
def trimSpaces (cs : List Char) : List Char :=
  ((cs.dropWhile (fun c => c = ' ')).reverse.dropWhile (fun c => c = ' ')).reverse

/-- Scanner state for the template renderer: outside any marker, after a
single opening brace, inside a marker collecting the (reversed) name, or
inside a marker after a single closing brace. -/
inductive RState where
  | scan
  | open1
  | name (acc : List Char)
  | close1 (acc : List Char)

/-- What an unterminated marker contributes when input ends (Jinja would
raise a template-syntax error there; no verified property exercises
malformed templates, so the model keeps the text literal). -/
def rflush : RState → List Char
  | .scan => []
  | .open1 => [obr]
  | .name acc => obr :: obr :: acc.reverse
  | .close1 acc => obr :: obr :: acc.reverse ++ [cbr]

/-- The replacement text Jinja produces for a variable reference: `str` of
the bound value, or the empty string when the name is undefined. -/
def lookupRender (repl : Dict) (acc : List Char) : List Char :=
  match dictGet repl (String.mk (trimSpaces acc.reverse)) with
  | some v => (pyStr v).data
  | none => []

/-- Character-level model of `jinja2.Template(s).render(**replacements)`
restricted to variable substitution, the only Jinja feature the
configuration templates use: each marker of two opening braces, a name and
two closing braces is replaced by the bound value's `str`, undefined names
render as the empty string. Jinja statement and comment delimiters are not
modelled: text containing them is excluded from every quantified theorem
through `noMark`, which bans all three delimiter openers. -/
def renderGo (repl : Dict) (st : RState) : List Char → List Char
  | [] => rflush st
  | c :: cs =>
    match st with
    | .scan =>
        if c = obr then renderGo repl .open1 cs
        else c :: renderGo repl .scan cs
    | .open1 =>
        if c = obr then renderGo repl (.name []) cs
        else obr :: c :: renderGo repl .scan cs
    | .name acc =>
        if c = cbr then renderGo repl (.close1 acc) cs
        else renderGo repl (.name (c :: acc)) cs
    | .close1 acc =>
        if c = cbr then lookupRender repl acc ++ renderGo repl .scan cs
        else renderGo repl (.name (c :: cbr :: acc)) cs

/-- `Template(s).render(**replacements)` on a whole string. -/
def renderTemplate (s : String) (repl : Dict) : String :=
  String.mk (renderGo repl .scan s.data)

/-- Spellings PyYAML 1.1 resolves to booleans. -/
def yamlTrueToks : List String :=
  ["true", "True", "TRUE", "yes", "Yes", "YES", "on", "On", "ON"]

def yamlFalseToks : List String :=
  ["false", "False", "FALSE", "no", "No", "NO", "off", "Off", "OFF"]

/-- Spellings PyYAML resolves to null (the empty document also loads as
`None`). -/
def yamlNullToks : List String :=
  ["~", "null", "Null", "NULL"]

/-- Decimal integer literal, with optional leading minus sign. -/
def parseIntTok (cs : List Char) : Option Int :=
  match cs with
  | [] => none
  | c :: rest =>
    let digits := if c = '-' then rest else cs
    if digits ≠ [] ∧ digits.all Char.isDigit then
      let n : Nat := digits.foldl (fun acc d => acc * 10 + (d.toNat - 48)) 0
      some (if c = '-' then -(n : Int) else (n : Int))
    else none

/-- Model of `yaml.safe_load` applied to one rendered scalar, together with
the `ScannerError` fallback in `nested_render` that re-loads the text as a
quoted string: booleans, nulls and decimal integers resolve to their typed
values, everything else is kept as the (whitespace-trimmed) literal string.
PyYAML forms outside this grammar (floats, octal/hex/sexagesimal numbers,
timestamps, flow mappings and sequences) are not modelled and would be
re-typed differently by the real loader; concrete theorems feed this
function only strings inside the modelled grammar, and theorems that
quantify over string leaves restrict them to `yamlInertStr`, where
`safe_load` provably returns the string unchanged. -/
def yamlLoadScalar (s : String) : Yaml :=
  let t := String.mk (trimSpaces s.data)
  if t = "" then .null
  else if yamlNullToks.contains t then .null
  else if yamlTrueToks.contains t then .bool true
  else if yamlFalseToks.contains t then .bool false
  else
    match parseIntTok t.data with
    | some n => .int n
    | none => .str t

/-- Python truthiness of a YAML value (`if cfg:` in the leaf branch of
`nested_render`). -/
def yamlTruthy : Yaml → Bool
  | .str s => s ≠ ""
  | .int n => n ≠ 0
  | .bool b => b
  | .null => false
  | .map es => match es with | .nil => false | .cons _ _ _ => true

/-- `fully_rendered_cfgs[key] = value` over a whole rendered entry list: the
accumulator dict passed into `nested_render` extended by the freshly
rendered entries (callers always pass the empty dict). -/
def yentriesAppend : YEntries → YEntries → YEntries
  | .nil, out => out
  | .cons k v rest, out => .cons k v (yentriesAppend rest out)

mutual

/-- `nested_render(cfg, fully_rendered_cfgs, replacements)` from
`fence/config.py` (lines 146-227). The mapping branch is `renderEntries`;
the `AttributeError` branch renders a truthy scalar through the template
engine and re-loads it as YAML, and returns a falsy scalar unchanged. The
`replacements` dict is mutated in place in the source, so it is threaded
through and returned alongside the rendered value. -/
def nested_render (cfg : Yaml) (frc : YEntries) (repl : Dict) : Yaml × Dict :=
  match cfg with
  | .map entries =>
      let out := renderEntries entries entries repl
      (.map (yentriesAppend frc out.1), out.2)
  | leaf =>
      if yamlTruthy leaf then
        (yamlLoadScalar (renderTemplate (pyStr leaf) repl), repl)
      else (leaf, repl)

/-- The `for key, value in cfg.iteritems()` loop of `nested_render`: before
each child, `replacements.update(cfg)` pushes every key-value pair of the
current mapping; after the recursive call, the loop pops every key of the
current mapping back out of `replacements`. -/
def renderEntries (l : YEntries) (cfgAll : YEntries) (repl : Dict) :
    YEntries × Dict :=
  match l with
  | .nil => (.nil, repl)
  | .cons k v rest =>
      let repl1 := dictUpdateList repl cfgAll.toDict
      let out := nested_render v .nil repl1
      let repl3 := dictPopKeys out.2 cfgAll.keys
      let outRest := renderEntries rest cfgAll repl3
      (.cons k out.1 outRest.1, outRest.2)

end


/-- A character list is free of Jinja delimiters: no opening brace followed
by a second opening brace, a percent sign or a hash — the openers of
Jinja's variable, statement and comment markers. The renderer model
substitutes only variable markers, and a statement or comment delimiter
would make the real `jinja2.Template` diverge from the model (it raises or
strips), so every marker-freeness hypothesis excludes all three. -/
def noMark : List Char → Bool
  | [] => true
  | [_] => true
  | c1 :: c2 :: rest =>
      !(c1 = obr && (c2 = obr || c2 = pctChar || c2 = hashChar))
        && noMark (c2 :: rest)

/-- A string contains no Jinja delimiter of any kind. -/
def noMarkers (s : String) : Bool := noMark s.data

/-- A plain alphabetic scalar on which the model provably coincides with
`yaml.safe_load`: nonempty, ASCII letters only (hence nothing to strip, no
Jinja delimiter, and no match for PyYAML's int, float, octal, sexagesimal,
timestamp, merge-key, value-key or flow-syntax resolvers, which all need a
digit or punctuation), and not one of the word spellings PyYAML resolves
to a boolean or a null. `safe_load` returns such a one-scalar document as
the string itself, and `yamlLoadScalar` provably does the same. -/
def yamlInertStr (s : String) : Bool :=
  !(s = "") && s.data.all Char.isAlpha
    && !(yamlTrueToks.contains s) && !(yamlFalseToks.contains s)
    && !(yamlNullToks.contains s)

/-- A scalar (non-mapping) value. -/
def Yaml.isScalar : Yaml → Bool
  | .map _ => false
  | _ => true

/-- The merge step of `_load_configuration_files` (`fence/__init__.py`
lines 189-226) and, identically, `Config._load_configuration_file`
(`fence/config.py` lines 102-130): `common_keys` are the default entries
whose key also appears in the provided document, `keys_to_update` the
provided entries whose key is common, `unknown_keys` the rest of the
provided entries; the default tree is updated with `keys_to_update` and the
unknown keys are only logged. Returns (merged configuration, unknown keys). -/
def load_configuration_files (config provided : Dict) : Dict × Dict :=
  let common_keys := config.filter (fun p => dictContains provided p.1)
  let keys_to_update := provided.filter (fun p => dictContains common_keys p.1)
  let unknown_keys := provided.filter (fun p => !(dictContains common_keys p.1))
  (dictUpdateList config keys_to_update, unknown_keys)

/-- The `Config` singleton of `fence/config.py` (lines 19-61): a mapping
wrapper around the private `_configs` dict. Its mutators (`set`,
`__setitem__`, `update`) are modelled as state transformers returning the
successor state. -/
structure Config where
  configs : Dict
deriving DecidableEq

/-- `Config.get(key, *args)` without a default. -/
def Config.get (c : Config) (k : String) : Option Yaml :=
  dictGet c.configs k

/-- `Config.set(key, value)` / `Config.__setitem__`. -/
def Config.set (c : Config) (k : String) (v : Yaml) : Config :=
  ⟨dictSet c.configs k v⟩

/-- `Config.update(*args)` with a dict argument. -/
def Config.updateWith (c : Config) (u : Dict) : Config :=
  ⟨dictUpdateList c.configs u⟩

/-- Claims of a decoded JWT, restricted to the fields
`fence/jwt/validate.py` touches. Optional fields model dict keys that may
be absent (`claims.get`, membership tests, `claims[...]` access). -/
structure TokenClaims where
  iss : Option String
  aud : List String
  pur : Option String
  jti : Option String
  exp : Nat
deriving DecidableEq

/-- A presented token, as far as validation inspects it: whether
`jwt.get_unverified_header` succeeds, the `kid` header, whether the
signature verifies under the resolved key, and the (unverified) claims
payload that both `jwt.decode(..., verify=False)` and a successful library
validation expose. -/
structure Token where
  headerOk : Bool
  kid : Option String
  sigValid : Bool
  claims : TokenClaims
deriving DecidableEq

/-- The environment `validate_jwt` reads: `BASE_URL`, the optional
`OIDC_ISSUER` configuration, the revocation store consulted by
`is_blacklisted`, and the current time for expiry checking. -/
structure Env where
  baseUrl : String
  oidcIssuer : Option String
  blacklist : List String
  now : Nat
deriving DecidableEq

/-- Modelled from the spec: `is_blacklisted` lives in
`fence/jwt/blacklist.py`, which is not under `src/`; §4.3 specifies
`is_revoked(token_id) -> bool` as membership in the shared revocation
registry keyed by token identifier. -/
def is_blacklisted (env : Env) (jti : String) : Bool :=
  env.blacklist.contains jti

/-- Errors raised by `validate_jwt` and its callees. `jwtError` and
`jwtPurposeError` mirror `fence.jwt.errors.JWTError` and `JWTPurposeError`
with their message; `keyError` models a Python `KeyError` from a missing
claims key (`claims['jti']`); `unboundLocal` models the
`UnboundLocalError` raised by the handler at validate.py line 101, which
reads the variable `claims` before any assignment to it has happened. -/
inductive JWTErr where
  | jwtError (msg : String)
  | jwtPurposeError (msg : String)
  | keyError (key : String)
  | unboundLocal
deriving DecidableEq

/-- Message of the missing-purpose `JWTPurposeError` (validate.py line 28). -/
def purMissingMsg : String := "claims missing `pur` claim"

/-- Message of the mismatched-purpose `JWTPurposeError` (lines 30-33). -/
def purMismatchMsg (expected got : String) : String :=
  "claims have incorrect purpose: expected " ++ expected ++ ", got " ++ got

/-- `validate_purpose(claims, pur)` from `fence/jwt/validate.py` lines
11-33: error when the claims hold no `pur` entry, a different error when
the entry differs from the expected purpose. -/
def validate_purpose (claims : TokenClaims) (pur : String) :
    Except JWTErr Unit :=
  match claims.pur with
  | none => .error (.jwtPurposeError purMissingMsg)
  | some p =>
      if p ≠ pur then .error (.jwtPurposeError (purMismatchMsg pur p))
      else .ok ()

/-- Modelled from the spec: `authutils.token.validate.validate_jwt` is a
third-party dependency; §4.2 step 3 specifies it verifies the signature,
issuer membership in the trusted set, audience intersection with the
expected audience, and expiry, yielding the token's claims on success.
Purpose enforcement (step 4) is performed by the fence wrapper itself and
is therefore not part of this model. -/
def authutilsValidate (tok : Token) (audExpected : List String)
    (issuers : List String) (now : Nat) : Except String TokenClaims :=
  if !tok.sigValid then .error "signature verification failed"
  else
    match tok.claims.iss with
    | none => .error "missing issuer claim"
    | some i =>
        if !(issuers.contains i) then .error "issuer not allowed"
        else if tok.claims.aud.all (fun a => !(audExpected.contains a)) then
          .error "invalid audience"
        else if tok.claims.exp ≤ now then .error "token is expired"
        else .ok tok.claims

/-- One `get_public_key(kid, iss, attempt_refresh)` invocation issued by
`validate_jwt` (validate.py lines 87-89). -/
structure KeyFetch where
  kid : Option String
  iss : Option String
  attemptRefresh : Bool
deriving DecidableEq

/-- Outcome of `validate_jwt`: the returned claims or the raised error,
plus the key-resolution invocations made on the way. -/
structure VJOut where
  result : Except JWTErr TokenClaims
  keyFetches : List KeyFetch

/-- Lines 107-119 of validate.py: require a `pur` claim (the error message
formats `claims['jti']`, so a missing `jti` raises `KeyError` instead),
then for `refresh`/`api_key` purposes reject identifiers found in the
blacklist. -/
def checkPurAndBlacklist (env : Env) (claims : TokenClaims) :
    Except JWTErr TokenClaims :=
  match claims.pur with
  | none =>
      match claims.jti with
      | none => .error (.keyError "jti")
      | some j =>
          .error (.jwtError ("token " ++ j ++ " missing purpose (`pur`) claim"))
  | some p =>
      if p = "refresh" ∨ p = "api_key" then
        match claims.jti with
        | none => .error (.keyError "jti")
        | some j =>
            if is_blacklisted env j then .error (.jwtError "token is blacklisted")
            else .ok claims
      else .ok claims

/-- `validate_jwt(encoded_token, aud, purpose, ...)` from
`fence/jwt/validate.py` lines 36-119, for a caller-supplied token (the
Flask-header extraction path for `encoded_token=None` is out of model).
`aud = aud or {'openid'}`; the trusted issuers are `BASE_URL` plus a truthy
`OIDC_ISSUER`; the key is resolved with
`attempt_refresh=(token_iss != iss)` where `token_iss` is the unverified
`iss` claim; a library validation failure lands in the `except` branch
whose own first statement raises `UnboundLocalError` (line 101); an
explicitly given truthy `purpose` is checked by `validate_purpose`; then
the purpose-presence and blacklist checks of lines 107-119 run. -/
def audOrDefault (aud : Option (List String)) : List String :=
  match aud with
  | none => ["openid"]
  | some l => if l = [] then ["openid"] else l

/-- The trusted issuer list of validate.py lines 76-80: `BASE_URL`, plus a
truthy `OIDC_ISSUER` configuration value. -/
def trustedIssuers (env : Env) : List String :=
  match env.oidcIssuer with
  | some s => if s ≠ "" then [env.baseUrl, s] else [env.baseUrl]
  | none => [env.baseUrl]

/-- Lines 105-119 of validate.py, run on the claims a successful library
validation returned: `if purpose: validate_purpose(claims, purpose)`, then
the purpose-presence and blacklist checks. -/
def postLibraryChecks (env : Env) (purpose : Option String)
    (claims : TokenClaims) : Except JWTErr TokenClaims :=
  let purGiven : Bool :=
    match purpose with
    | some p => p ≠ ""
    | none => false
  if purGiven then
    match purpose with
    | some p =>
        match validate_purpose claims p with
        | .error e => .error e
        | .ok _ => checkPurAndBlacklist env claims
    | none => checkPurAndBlacklist env claims
  else checkPurAndBlacklist env claims

def validate_jwt (env : Env) (tok : Token) (aud : Option (List String))
    (purpose : Option String) : VJOut :=
  if !tok.headerOk then
    ⟨.error (.jwtError "Invalid token : header parse failed"), []⟩
  else
    let tokenIss := tok.claims.iss
    let fetch : KeyFetch :=
      ⟨tok.kid, tokenIss, decide (tokenIss ≠ some env.baseUrl)⟩
    match authutilsValidate tok (audOrDefault aud) (trustedIssuers env)
        env.now with
    | .error _ => ⟨.error .unboundLocal, [fetch]⟩
    | .ok claims => ⟨postLibraryChecks env purpose claims, [fetch]⟩

/-- Truthiness of an optional string (Python: `None` and `''` are falsy). -/
def truthyOptStr : Option String → Bool
  | none => false
  | some s => s ≠ ""

/-- The request data `check_csrf` reads. -/
structure CsrfRequest where
  method : String
  hasAuthHeader : Bool
  csrfHeaderTok : Option String
  csrfCookie : Option String
  referer : Option String
deriving DecidableEq

/-- The Flask session as the guard reads it (`session.get('username')`). -/
structure CsrfSession where
  username : Option String
deriving DecidableEq

/-- The app configuration the guard reads
(`config.get('ENABLE_CSRF_PROTECTION', True)`). -/
structure CsrfCfg where
  enableCsrfProtection : Option Bool
deriving DecidableEq

/-- How `check_csrf` can abort the request: the explicit `UserError`, or
the `TypeError` raised by `'HTTP REFERER ' + referer` (line 422) when no
referer header is present (`referer` is then `None`). Either aborts the
request before the handler runs. -/
inductive CsrfOutcome where
  | userError (msg : String)
  | typeError
deriving DecidableEq

/-- `check_csrf` from `fence/__init__.py` lines 409-424, a `before_request`
guard: `none` means the request proceeds, `some e` that it is aborted by
the raised error before any handler or session mutation runs. -/
def check_csrf (cfg : CsrfCfg) (req : CsrfRequest) (sess : CsrfSession) :
    Option CsrfOutcome :=
  let hasAuth := req.hasAuthHeader
  let noUsername := !(truthyOptStr sess.username)
  if hasAuth || noUsername then none
  else if !(cfg.enableCsrfProtection.getD true) then none
  else if req.method ≠ "GET" then
    match req.referer with
    | none => some .typeError
    | some _ =>
        if truthyOptStr req.csrfCookie && truthyOptStr req.csrfHeaderTok
            && (req.csrfCookie == req.csrfHeaderTok)
            && truthyOptStr req.referer then
          none
        else some (.userError "CSRF verification failed. Request aborted")
  else none

/-- Python `s.startswith(pre)`. -/
def pyStartswith (s pre : String) : Bool :=
  pre.data.isPrefixOf s.data

/-- The configuration keys `logout_endpoint` reads
(`app.config.get('BASE_URL', '')`, `app.config.get('ROOT_URL', '')`). -/
structure LogoutCfg where
  baseUrl : Option String
  rootUrl : Option String
deriving DecidableEq

/-- Modelled from the spec: `build_redirect_url` lives in `fence/auth.py`,
which is not under `src/`; §6 specifies the non-absolute branch produces a
locally-built URL rooted at the broker's own `ROOT_URL`, so the model
concatenates the root with the (slash-normalised) path. -/
def build_redirect_url (root path : String) : String :=
  root ++ (if pyStartswith path "/" then path else "/" ++ path)

/-- The redirect-target computation of `logout_endpoint`
(`fence/__init__.py` lines 86-94): the `next` query parameter defaults to
`BASE_URL`; a value starting with `https` or `http` is used as-is, anything
else goes through `build_redirect_url(ROOT_URL, value)`. -/
def logout_endpoint (cfg : LogoutCfg) (nextArg : Option String) : String :=
  let root := cfg.baseUrl.getD ""
  let request_next := nextArg.getD root
  if pyStartswith request_next "https" || pyStartswith request_next "http" then
    request_next
  else
    build_redirect_url (cfg.rootUrl.getD "") request_next

/-- From the spec's words (§6, `GET /logout`): an absolute `http(s)` URL,
i.e. one carrying an explicit `http://` or `https://` scheme prefix. Used
to state claim C9 against the code's prefix test. -/
def specAbsoluteHttpUrl (s : String) : Bool :=
  pyStartswith s "http://" || pyStartswith s "https://"

/-- Configuration tree for exercising the scoping of `nested_render`:
a root variable `K`, and a branch `A` whose first child subtree `B`
redefines `K` and whose second child `C` references `K` from a leaf
(`x` followed by a marker referencing `K`). -/
def c3Tree : Yaml :=
  .map (.cons "K" (.str "top")
    (.cons "A" (.map (.cons "B" (.map (.cons "K" (.str "inner") .nil))
      (.cons "C" (.str "x\x7b\x7bK\x7d\x7d") .nil))) .nil))

/-- What `nested_render` actually produces on `c3Tree`: `C` renders to
`"x"` — the root binding of `K` was popped when leaving `B` and never
restored. -/
def c3Rendered : Yaml :=
  .map (.cons "K" (.str "top")
    (.cons "A" (.map (.cons "B" (.map (.cons "K" (.str "inner") .nil))
      (.cons "C" (.str "x") .nil))) .nil))

/-- What the ancestor-scope-visibility property (and the function's own
docstring: global variables usable anywhere) requires on `c3Tree`: `C`
renders to `"xtop"`. -/
def c3Claimed : Yaml :=
  .map (.cons "K" (.str "top")
    (.cons "A" (.map (.cons "B" (.map (.cons "K" (.str "inner") .nil))
      (.cons "C" (.str "xtop") .nil))) .nil))

/-- Default document with one nested subtree, for the merge counterexample. -/
def c6Default : Dict := [("A", Yaml.map (.cons "x" (Yaml.int 1) .nil))]

/-- Provided document whose subtree under the shared top-level key `A`
holds only the key `y`, which exists nowhere in the default document. -/
def c6Provided : Dict := [("A", Yaml.map (.cons "y" (Yaml.int 2) .nil))]

/-- A loaded configuration state, for exhibiting post-load mutation. -/
def c7Loaded : Config := ⟨[("BASE_URL", Yaml.str "https://old")]⟩

/-- Environment fixture: broker at `https://me`, no external issuer, one
blacklisted token identifier, clock at 50. -/
def envW : Env := ⟨"https://me", none, ["jtiRevoked"], 50⟩

/-- A well-signed, unexpired, self-issued refresh token whose identifier is
in the blacklist of `envW`. -/
def tokWRefresh : Token :=
  ⟨true, some "kid1", true,
    ⟨some "https://me", ["openid"], some "refresh", some "jtiRevoked", 100⟩⟩

/-- A well-signed, unexpired, self-issued token with no `pur` claim. -/
def tokWNoPur : Token :=
  ⟨true, some "kid1", true,
    ⟨some "https://me", ["openid"], none, some "jti1", 100⟩⟩

theorem renderGo_id (repl : Dict) :
    ∀ cs : List Char, noMark cs = true → renderGo repl .scan cs = cs
  | [], _ => rfl
  | [c], _ => by
      by_cases hc : c = obr
      · subst hc; simp [renderGo, rflush]
      · simp [renderGo, hc, rflush]
  | c1 :: c2 :: rest, h => by
      have hstep : noMark (c1 :: c2 :: rest)
          = ((!(c1 = obr && (c2 = obr || c2 = pctChar || c2 = hashChar)))
            && noMark (c2 :: rest)) := rfl
      rw [hstep, Bool.and_eq_true] at h
      by_cases h1 : c1 = obr
      · have h2 : ¬(c2 = obr) := by
          intro h2
          have hby := h.1
          rw [h1, h2] at hby
          simp at hby
        subst h1
        have hrest : noMark rest = true := by
          rcases rest with _ | ⟨c3, rest'⟩
          · rfl
          · have hstep2 : noMark (c2 :: c3 :: rest')
                = ((!(c2 = obr && (c3 = obr || c3 = pctChar || c3 = hashChar)))
                  && noMark (c3 :: rest')) := rfl
            have hby := h.2
            rw [hstep2, Bool.and_eq_true] at hby
            exact hby.2
        simp [renderGo, h2, renderGo_id repl rest hrest]
      · have step : renderGo repl .scan (c1 :: c2 :: rest)
            = c1 :: renderGo repl .scan (c2 :: rest) := by
          simp [renderGo, h1]
        rw [step, renderGo_id repl (c2 :: rest) h.2]

/-- On marker-free input the template renderer is the identity. -/
theorem renderTemplate_id (s : String) (repl : Dict) (h : noMarkers s = true) :
    renderTemplate s repl = s := by
  have hgo : renderGo repl .scan s.data = s.data := renderGo_id repl s.data h
  cases s
  simp [renderTemplate] at hgo ⊢
  exact congrArg String.mk hgo


theorem dictGet_dictSet_self : ∀ (d : Dict) (k : String) (v : Yaml),
    dictGet (dictSet d k v) k = some v
  | [], k, v => by simp [dictSet, dictGet, List.find?]
  | p :: rest, k, v => by
      by_cases hp : p.1 = k
      · simp [dictSet, hp, dictGet, List.find?]
      · simpa [dictSet, hp, dictGet, List.find?]
          using dictGet_dictSet_self rest k v

theorem dictGet_dictSet_ne : ∀ (d : Dict) (k k' : String) (v : Yaml),
    k' ≠ k → dictGet (dictSet d k v) k' = dictGet d k'
  | [], k, k', v, h => by
      have hk : ¬(k = k') := fun hh => h hh.symm
      simp [dictSet, dictGet, List.find?, hk]
  | p :: rest, k, k', v, h => by
      have hk : ¬(k = k') := fun hh => h hh.symm
      by_cases hp : p.1 = k
      · have hpk' : ¬(p.1 = k') := by rw [hp]; exact hk
        simp [dictSet, hp, dictGet, List.find?, hk, hpk']
      · by_cases hk' : p.1 = k'
        · simp [dictSet, dictGet, List.find?, hp, hk', h]
        · simpa [dictSet, hp, dictGet, List.find?, hk']
            using dictGet_dictSet_ne rest k k' v h

theorem dictGet_none_of_not_mem : ∀ (d : Dict) (k : String),
    k ∉ d.map Prod.fst → dictGet d k = none
  | [], _, _ => rfl
  | p :: rest, k, h => by
      have hp : ¬(p.1 = k) := by
        intro hh
        exact h (by simp [hh.symm])
      have hrest : k ∉ rest.map Prod.fst := fun hh => h (by simp [hh])
      simpa [dictGet, List.find?, hp] using dictGet_none_of_not_mem rest k hrest

theorem dictContains_eq_isSome : ∀ (d : Dict) (k : String),
    dictContains d k = (dictGet d k).isSome
  | [], _ => rfl
  | p :: rest, k => by
      by_cases hp : p.1 = k
      · simp [dictContains, dictGet, List.find?, hp]
      · simpa [dictContains, dictGet, List.find?, hp]
          using dictContains_eq_isSome rest k

theorem dictContains_of_mem (d : Dict) (p : String × Yaml) (h : p ∈ d) :
    dictContains d p.1 = true := by
  unfold dictContains
  exact List.any_eq_true.mpr ⟨p, h, by simp⟩

theorem dictContains_filter_key (q : String → Bool) :
    ∀ (l : Dict) (x : String),
      dictContains (l.filter (fun p => q p.1)) x = (dictContains l x && q x)
  | [], x => by simp [dictContains]
  | p :: rest, x => by
      have ih := dictContains_filter_key q rest x
      by_cases hq : q p.1
      · by_cases hx : p.1 = x
        · simp [List.filter, dictContains, hq, hx, hx ▸ hq]
        · simpa [List.filter, dictContains, hq, hx] using ih
      · have hstep : (p :: rest).filter (fun p => q p.1)
            = rest.filter (fun p => q p.1) := by simp [List.filter, hq]
        rw [hstep, ih]
        by_cases hx : p.1 = x
        · have hqx : q x = false := by
            rw [← hx]; exact Bool.of_not_eq_true hq
          simp [dictContains, hqx]
        · simp [dictContains, List.any_cons, hx]

theorem dictGet_filter_key (q : String → Bool) :
    ∀ (l : Dict) (x : String),
      dictGet (l.filter (fun p => q p.1)) x
        = if q x then dictGet l x else none
  | [], x => by simp [dictGet]
  | p :: rest, x => by
      have ih := dictGet_filter_key q rest x
      by_cases hq : q p.1
      · by_cases hx : p.1 = x
        · simp [List.filter, dictGet, List.find?, hq, hx, hx ▸ hq]
        · simpa [List.filter, dictGet, List.find?, hq, hx] using ih
      · have hstep : (p :: rest).filter (fun p => q p.1)
            = rest.filter (fun p => q p.1) := by simp [List.filter, hq]
        rw [hstep, ih]
        by_cases hx : p.1 = x
        · have hqx : q x = false := by
            rw [← hx]; exact Bool.of_not_eq_true hq
          simp [hqx]
        · by_cases hqx : q x
          · simp [hqx, dictGet, List.find?, hx]
          · simp [hqx]

theorem dictGet_updateList : ∀ (u d : Dict) (k : String),
    (u.map Prod.fst).Nodup →
    dictGet (dictUpdateList d u) k
      = match dictGet u k with
        | some w => some w
        | none => dictGet d k
  | [], d, k, _ => by simp [dictUpdateList, dictGet]
  | q :: rest, d, k, hnd => by
      have hnd' : (rest.map Prod.fst).Nodup := by
        simpa using hnd.of_cons
      have ih := dictGet_updateList rest (dictSet d q.1 q.2) k hnd'
      have hstep : dictUpdateList d (q :: rest)
          = dictUpdateList (dictSet d q.1 q.2) rest := by
        simp [dictUpdateList]
      by_cases hk : q.1 = k
      · have hknotin : k ∉ rest.map Prod.fst := by
          rw [← hk]
          exact (List.nodup_cons.mp (by simpa using hnd)).1
        have hrest : dictGet rest k = none := dictGet_none_of_not_mem rest k hknotin
        have hget : dictGet (q :: rest) k = some q.2 := by
          simp [dictGet, List.find?, hk]
        rw [hstep, ih, hrest, hget]
        exact hk ▸ dictGet_dictSet_self d q.1 q.2
      · have hne : k ≠ q.1 := fun hh => hk hh.symm
        rw [hstep, ih, dictGet_dictSet_ne d q.1 k q.2 hne]
        simp [dictGet, List.find?, hk]


/-- C3: on `c3Tree`, a leaf (`A.C`) referencing the variable `K` defined in
an ancestor scope (the root) does not resolve to that variable's value:
because the earlier sibling subtree `B` also defines `K`, the pop loop of
`nested_render` removes the binding outright instead of restoring the
ancestor's value, so the reference renders as the empty string and the leaf
becomes `"x"` where the scoping rule (and the function's own docstring)
require `"xtop"`. -/
theorem c3_ancestor_binding_lost :
    (nested_render c3Tree .nil []).1 = c3Rendered ∧ c3Rendered ≠ c3Claimed := by
  decide

/-- C8 counterexample: the marker-free string value `"123"` does not
round-trip through resolution — the render-then-reparse pipeline re-types
it as the integer `123`. -/
theorem c8_counterexample :
    noMarkers (pyStr (Yaml.str "123")) = true
    ∧ (nested_render (Yaml.str "123") .nil []).1 = Yaml.int 123
    ∧ Yaml.int 123 ≠ Yaml.str "123" := by
  decide

theorem isAlpha_not_digit (c : Char) (h : c.isAlpha = true) :
    c.isDigit = false := by
  rcases hd : c.isDigit with _ | _
  · rfl
  exfalso
  have hd' := hd
  unfold Char.isDigit at hd'
  rw [Bool.and_eq_true] at hd'
  have d1 : 48 ≤ c.val.toNat :=
    UInt32.le_toNat_of_le (by decide) (of_decide_eq_true hd'.1)
  have d2 : c.val.toNat ≤ 57 :=
    UInt32.toNat_le_of_le (by decide) (of_decide_eq_true hd'.2)
  unfold Char.isAlpha at h
  rw [Bool.or_eq_true] at h
  rcases h with hu | hl
  · unfold Char.isUpper at hu
    rw [Bool.and_eq_true] at hu
    have u1 : 65 ≤ c.val.toNat :=
      UInt32.le_toNat_of_le (by decide) (of_decide_eq_true hu.1)
    omega
  · unfold Char.isLower at hl
    rw [Bool.and_eq_true] at hl
    have l1 : 97 ≤ c.val.toNat :=
      UInt32.le_toNat_of_le (by decide) (of_decide_eq_true hl.1)
    omega

theorem alpha_ne (c x : Char) (h : c.isAlpha = true)
    (hx : x.isAlpha = false) : ¬(c = x) := by
  intro he
  subst he
  rw [hx] at h
  cases h

theorem dropWhile_space_of_alpha (cs : List Char)
    (h : cs.all Char.isAlpha = true) :
    cs.dropWhile (fun c => c = ' ') = cs := by
  cases cs with
  | nil => rfl
  | cons a l =>
      have ha : a.isAlpha = true := List.all_eq_true.mp h a (by simp)
      have hne : ¬(a = ' ') := alpha_ne a ' ' ha (by decide)
      simp [List.dropWhile_cons, hne]

theorem trimSpaces_of_alpha (cs : List Char)
    (h : cs.all Char.isAlpha = true) : trimSpaces cs = cs := by
  unfold trimSpaces
  rw [dropWhile_space_of_alpha cs h]
  have hrev : cs.reverse.all Char.isAlpha = true := by
    rw [List.all_eq_true] at h ⊢
    intro x hx
    exact h x (List.mem_reverse.mp hx)
  rw [dropWhile_space_of_alpha cs.reverse hrev, List.reverse_reverse]

theorem noMark_of_alpha :
    ∀ cs : List Char, cs.all Char.isAlpha = true → noMark cs = true
  | [], _ => rfl
  | [_], _ => rfl
  | c1 :: c2 :: rest, h => by
      have h1 : c1.isAlpha = true := List.all_eq_true.mp h c1 (by simp)
      have hrest : (c2 :: rest).all Char.isAlpha = true := by
        rw [List.all_eq_true] at h ⊢
        intro x hx
        exact h x (by simp [hx])
      have hne : ¬(c1 = obr) := alpha_ne c1 obr h1 (by decide)
      have hstep : noMark (c1 :: c2 :: rest)
          = ((!(c1 = obr && (c2 = obr || c2 = pctChar || c2 = hashChar)))
            && noMark (c2 :: rest)) := rfl
      rw [hstep, Bool.and_eq_true]
      exact ⟨by simp [hne], noMark_of_alpha (c2 :: rest) hrest⟩

theorem parseIntTok_none_of_alpha (cs : List Char)
    (h : cs.all Char.isAlpha = true) : parseIntTok cs = none := by
  cases cs with
  | nil => rfl
  | cons c rest =>
      have hc : c.isAlpha = true := List.all_eq_true.mp h c (by simp)
      have hnm : ¬(c = Char.ofNat 45) := alpha_ne c (Char.ofNat 45) hc (by decide)
      have hnm' : ¬(c = '-') := hnm
      have hdig : (c :: rest).all Char.isDigit = false := by
        rcases hv : (c :: rest).all Char.isDigit with _ | _
        · rfl
        · have hcd := List.all_eq_true.mp hv c (by simp)
          rw [isAlpha_not_digit c hc] at hcd
          cases hcd
      unfold parseIntTok
      simp [hnm', hdig]

theorem yamlLoadScalar_inert (s : String) (h : yamlInertStr s = true) :
    yamlLoadScalar s = .str s := by
  unfold yamlInertStr at h
  rw [Bool.and_eq_true, Bool.and_eq_true, Bool.and_eq_true,
    Bool.and_eq_true] at h
  obtain ⟨⟨⟨⟨hne, halpha⟩, htrue⟩, hfalse⟩, hnull⟩ := h
  have hdata : trimSpaces s.data = s.data := trimSpaces_of_alpha s.data halpha
  have hmk : String.mk (trimSpaces s.data) = s := by
    rw [hdata]
  have h1 : ¬(s = "") := by simpa using hne
  have m2 : s ∉ yamlNullToks := by simpa using hnull
  have m3 : s ∉ yamlTrueToks := by simpa using htrue
  have m4 : s ∉ yamlFalseToks := by simpa using hfalse
  simp only [yamlLoadScalar, hmk, hdata]
  simp [h1, m2, m3, m4, parseIntTok_none_of_alpha s.data halpha]


/-- C8 amended: resolution leaves a scalar leaf unchanged when the leaf is
falsy (rendering is skipped outright), or when it is a plain alphabetic
string other than PyYAML's boolean and null word spellings — a domain on
which the modelled renderer and re-parser provably coincide with Jinja and
PyYAML (no Jinja delimiter of any kind can occur, and none of PyYAML's
re-typing resolvers can match). Outside this domain even a marker-free
leaf may be re-typed by the render-then-reparse pipeline, as the
counterexample shows. -/
theorem c8_amended (v : Yaml) (repl : Dict) (hs : v.isScalar = true)
    (hdom : yamlTruthy v = false
      ∨ ∃ s, v = Yaml.str s ∧ yamlInertStr s = true) :
    (nested_render v .nil repl).1 = v := by
  rcases hdom with hf | ⟨s, hv, hin⟩
  · cases v with
    | map es => simp [Yaml.isScalar] at hs
    | str s => simp [nested_render, hf]
    | int n => simp [nested_render, hf]
    | bool b => simp [nested_render, hf]
    | null => simp [nested_render, hf]
  · subst hv
    have hparts := hin
    unfold yamlInertStr at hparts
    rw [Bool.and_eq_true, Bool.and_eq_true, Bool.and_eq_true,
      Bool.and_eq_true] at hparts
    have hne : ¬(s = "") := by simpa using hparts.1.1.1.1
    have halpha : s.data.all Char.isAlpha = true := hparts.1.1.1.2
    have ht : yamlTruthy (Yaml.str s) = true := by
      simp [yamlTruthy, hne]
    have hnm : noMarkers s = true := noMark_of_alpha s.data halpha
    have hrt : renderTemplate (pyStr (Yaml.str s)) repl = s := by
      have : pyStr (Yaml.str s) = s := rfl
      rw [this]
      exact renderTemplate_id s repl hnm
    simp [nested_render, ht, hrt, yamlLoadScalar_inert s hin]

/-- C8 amended, witnessed at the plain alphabetic string `"hello"` under a
nonempty replacement scope. -/
theorem c8_amended_witness :
    (nested_render (Yaml.str "hello") .nil [("K", Yaml.str "v")]).1
      = Yaml.str "hello" :=
  c8_amended (Yaml.str "hello") [("K", Yaml.str "v")] (by decide)
    (Or.inr ⟨"hello", rfl, by decide⟩)

/-- C7 counterexample: the configuration value produced at startup is not
immutable — the `Config` component's own `set` operation (also reachable as
`__setitem__` and `update`) changes the value subsequently read for a key. -/
theorem c7_counterexample :
    (c7Loaded.set "BASE_URL" (Yaml.str "https://new")).get "BASE_URL"
      ≠ c7Loaded.get "BASE_URL" := by
  decide

/-- C7 amended: the configuration singleton remains a mutable mapping after
loading: `Config.set` (the basis of `__setitem__` and `update`) makes a
subsequent `get` of that key return the new value, so immutability is not
enforced by the component. -/
theorem c7_amended (c : Config) (k : String) (v : Yaml) :
    (c.set k v).get k = some v :=
  dictGet_dictSet_self c.configs k v

/-- C6 counterexample: merging `c6Default` with `c6Provided` lets the
nested key `y`, present only in the provided tree, take effect in the
merged configuration (the whole default subtree under `A` is replaced), and
the warning list is empty — `y` is neither warned about nor discarded. -/
theorem c6_counterexample :
    (load_configuration_files c6Default c6Provided).2 = []
    ∧ dictGet (load_configuration_files c6Default c6Provided).1 "A"
        = some (Yaml.map (.cons "y" (Yaml.int 2) .nil)) := by
  decide

/-- C6 amended: the merge and the unknown-key warning operate on top-level
keys only. For every default and provided document (the provided document's
top-level keys being distinct, as YAML mappings guarantee): a top-level key
absent from the default stays absent from the merge; a top-level key of the
default keeps its default value unless the provided document also has it,
in which case the provided value — entire subtree included — replaces it;
and the warned-and-discarded keys are exactly the provided top-level keys
absent from the default. -/
theorem c6_amended (config provided : Dict)
    (hnd : (provided.map Prod.fst).Nodup) :
    (∀ k, dictGet (load_configuration_files config provided).1 k
        = match dictGet config k, dictGet provided k with
          | none, _ => none
          | some v, none => some v
          | some _, some w => some w)
    ∧ (load_configuration_files config provided).2
        = provided.filter (fun p => !(dictContains config p.1)) := by
  unfold load_configuration_files
  simp only []
  constructor
  · intro k
    have hktuNd :
        ((provided.filter (fun p =>
            dictContains (config.filter (fun q => dictContains provided q.1)) p.1)).map
          Prod.fst).Nodup := by
      refine List.Nodup.sublist ?_ hnd
      exact List.Sublist.map Prod.fst (List.filter_sublist provided)
    rw [dictGet_updateList _ _ _ hktuNd]
    rw [dictGet_filter_key (fun key =>
      dictContains (config.filter (fun q => dictContains provided q.1)) key) provided k]
    rw [dictContains_filter_key (fun key => dictContains provided key) config k]
    rcases hc : dictGet config k with _ | v
    · have : dictContains config k = false := by
        rw [dictContains_eq_isSome, hc]; rfl
      simp [this]
    · have hcc : dictContains config k = true := by
        rw [dictContains_eq_isSome, hc]; rfl
      rcases hp : dictGet provided k with _ | w
      · have : dictContains provided k = false := by
          rw [dictContains_eq_isSome, hp]; rfl
        simp [this, hc]
      · have : dictContains provided k = true := by
          rw [dictContains_eq_isSome, hp]; rfl
        simp [this, hcc, hp]
  · apply List.filter_congr
    intro p hp
    have hmem : dictContains provided p.1 = true := dictContains_of_mem provided p hp
    rw [dictContains_filter_key (fun key => dictContains provided key) config p.1]
    rw [hmem, Bool.and_true]

/-- C6 amended, witnessed on `c6Default`/`c6Provided` extended by one
default-only and one provided-only key. -/
theorem c6_amended_witness :
    dictGet (load_configuration_files
        (c6Default ++ [("B", Yaml.str "keep")])
        (c6Provided ++ [("C", Yaml.str "drop")])).1 "B" = some (Yaml.str "keep") :=
  ((c6_amended (c6Default ++ [("B", Yaml.str "keep")])
      (c6Provided ++ [("C", Yaml.str "drop")]) (by decide)).1 "B").trans (by decide)

theorem authutilsValidate_ok_eq (tok : Token) (audE issuers : List String)
    (now : Nat) (c : TokenClaims)
    (h : authutilsValidate tok audE issuers now = .ok c) : c = tok.claims := by
  unfold authutilsValidate at h
  split at h
  · exact absurd h (by simp)
  · split at h
    · exact absurd h (by simp)
    · split at h
      · exact absurd h (by simp)
      · split at h
        · exact absurd h (by simp)
        · split at h
          · exact absurd h (by simp)
          · exact (Except.ok.injEq _ _ ▸ congrArg id h).symm ▸ by
              cases h; rfl

theorem authutilsValidate_success (tok : Token) (audE issuers : List String)
    (now : Nat) (hsig : tok.sigValid = true) (i : String)
    (hiss : tok.claims.iss = some i) (hmem : i ∈ issuers)
    (a : String) (ha : a ∈ tok.claims.aud) (haud : a ∈ audE)
    (hexp : now < tok.claims.exp) :
    authutilsValidate tok audE issuers now = .ok tok.claims := by
  unfold authutilsValidate
  rw [hsig]
  simp only [Bool.not_true, Bool.false_eq_true, if_false, hiss]
  have hc : issuers.contains i = true := List.elem_iff.mpr hmem
  rw [hc]
  have hall : tok.claims.aud.all (fun x => !(audE.contains x)) = false := by
    rcases hv : tok.claims.aud.all (fun x => !(audE.contains x)) with _ | _
    · rfl
    · have hx := List.all_eq_true.mp hv a ha
      have hin : audE.contains a = true := List.elem_iff.mpr haud
      rw [hin] at hx
      simp at hx
  rw [hall]
  simp [Nat.not_le.mpr hexp]

theorem checkPurAndBlacklist_pur_none (env : Env) (claims : TokenClaims)
    (h : claims.pur = none) :
    ∃ e, checkPurAndBlacklist env claims = .error e := by
  unfold checkPurAndBlacklist
  rw [h]
  cases claims.jti <;> exact ⟨_, rfl⟩

theorem validate_purpose_pur_none (claims : TokenClaims) (p : String)
    (h : claims.pur = none) :
    validate_purpose claims p = .error (.jwtPurposeError purMissingMsg) := by
  unfold validate_purpose
  rw [h]

theorem postLibraryChecks_pur_none (env : Env) (purpose : Option String)
    (claims : TokenClaims) (h : claims.pur = none) :
    ∃ e, postLibraryChecks env purpose claims = .error e := by
  rcases purpose with _ | p
  · simpa [postLibraryChecks] using checkPurAndBlacklist_pur_none env claims h
  · by_cases hp : p = ""
    · simpa [postLibraryChecks, hp]
        using checkPurAndBlacklist_pur_none env claims h
    · refine ⟨.jwtPurposeError purMissingMsg, ?_⟩
      simp [postLibraryChecks, hp, validate_purpose_pur_none claims p h]

/-- C1: every token whose claims lack a `pur` entry is rejected by
`validate_jwt` with an error and no claims are returned, whatever the
signature, issuer, audience or expiry situation is (part 1); when an
expected purpose is supplied and the remaining checks pass, the error is
specifically the missing-purpose `JWTPurposeError` (part 2), whose message
differs from the mismatch message for every expected/got pair (part 3). -/
theorem c1_missing_purpose_rejected (env : Env) (tok : Token)
    (aud : Option (List String)) (purpose : Option String)
    (hpur : tok.claims.pur = none) :
    (∃ e, (validate_jwt env tok aud purpose).result = .error e)
    ∧ (∀ p, p ≠ "" → tok.headerOk = true → tok.sigValid = true →
        tok.claims.iss = some env.baseUrl → "openid" ∈ tok.claims.aud →
        env.now < tok.claims.exp →
        (validate_jwt env tok none (some p)).result
          = .error (.jwtPurposeError purMissingMsg))
    ∧ (∀ p g, JWTErr.jwtPurposeError purMissingMsg
        ≠ JWTErr.jwtPurposeError (purMismatchMsg p g)) := by
  refine ⟨?_, ?_, ?_⟩
  · rcases hh : tok.headerOk with _ | _
    · exact ⟨.jwtError "Invalid token : header parse failed",
        by simp [validate_jwt, hh]⟩
    · rcases hlib : authutilsValidate tok (audOrDefault aud)
          (trustedIssuers env) env.now with e | c
      · exact ⟨.unboundLocal, by simp [validate_jwt, hh, hlib]⟩
      · have hc : c = tok.claims :=
          authutilsValidate_ok_eq tok _ _ _ c hlib
        obtain ⟨e, he⟩ :=
          postLibraryChecks_pur_none env purpose tok.claims hpur
        exact ⟨e, by simp [validate_jwt, hh, hlib, hc, he]⟩
  · intro p hp hh hsig hiss hopenid hexp
    have hmem : env.baseUrl ∈ trustedIssuers env := by
      unfold trustedIssuers
      rcases env.oidcIssuer with _ | s
      · simp
      · by_cases hs : s = "" <;> simp [hs]
    have hlib : authutilsValidate tok (audOrDefault none)
        (trustedIssuers env) env.now = .ok tok.claims :=
      authutilsValidate_success tok _ _ _ hsig env.baseUrl hiss hmem
        "openid" hopenid (by simp [audOrDefault]) hexp
    have hpost : postLibraryChecks env (some p) tok.claims
        = .error (.jwtPurposeError purMissingMsg) := by
      unfold postLibraryChecks
      simp [hp, validate_purpose_pur_none tok.claims p hpur]
    simp [validate_jwt, hh, hlib, hpost]
  · intro p g h
    have hmsg : purMissingMsg = purMismatchMsg p g := by
      injection h
    have hlen := congrArg String.length hmsg
    unfold purMissingMsg purMismatchMsg at hlen
    simp only [String.length_append] at hlen
    have e1 : "claims missing `pur` claim".length = 26 := by decide
    have e2 : "claims have incorrect purpose: expected ".length = 40 := by decide
    have e3 : ", got ".length = 6 := by decide
    rw [e1, e2, e3] at hlen
    omega

/-- C1 witness: the blanket rejection instantiated at a concrete
well-signed, unexpired, self-issued token lacking `pur`. -/
theorem c1_witness :
    ∃ e, (validate_jwt envW tokWNoPur none none).result = .error e :=
  (c1_missing_purpose_rejected envW tokWNoPur none none rfl).1

theorem checkPurAndBlacklist_other_pur (env : Env) (claims : TokenClaims)
    (pv : String) (h : claims.pur = some pv) (h1 : pv ≠ "refresh")
    (h2 : pv ≠ "api_key") : checkPurAndBlacklist env claims = .ok claims := by
  unfold checkPurAndBlacklist
  rw [h]
  simp [h1, h2]

theorem validate_purpose_error_shape (claims : TokenClaims) (p : String)
    (e : JWTErr) (h : validate_purpose claims p = .error e) :
    ∃ m, e = .jwtPurposeError m := by
  unfold validate_purpose at h
  split at h
  · exact ⟨purMissingMsg, by cases h; rfl⟩
  · split at h
    · exact ⟨_, by cases h; rfl⟩
    · cases h

theorem postLibraryChecks_cases (env : Env) (purpose : Option String)
    (claims : TokenClaims) :
    postLibraryChecks env purpose claims = checkPurAndBlacklist env claims
    ∨ ∃ m, postLibraryChecks env purpose claims
        = .error (.jwtPurposeError m) := by
  unfold postLibraryChecks
  rcases purpose with _ | p
  · left; simp
  · by_cases hp : p = ""
    · left; simp [hp]
    · rcases hv : validate_purpose claims p with e | u
      · right
        obtain ⟨m, hm⟩ := validate_purpose_error_shape claims p e hv
        exact ⟨m, by simp [hp, hv, hm]⟩
      · left; simp [hp, hv]

/-- C2: a well-signed, unexpired, self-issued token whose purpose is
`refresh` (or `api_key`) and whose identifier is blacklisted is rejected by
`validate_jwt` with the blacklist error (part 1); a token with any other
purpose is never rejected with the blacklist error, whatever the other
inputs are (part 2). -/
theorem c2_blacklist_rejection (env : Env) (tok : Token)
    (aud : Option (List String)) (purpose : Option String) (pv j : String) :
    (tok.headerOk = true → tok.sigValid = true →
      tok.claims.iss = some env.baseUrl → "openid" ∈ tok.claims.aud →
      env.now < tok.claims.exp →
      tok.claims.pur = some pv → (pv = "refresh" ∨ pv = "api_key") →
      tok.claims.jti = some j → j ∈ env.blacklist →
      (validate_jwt env tok none none).result
        = .error (.jwtError "token is blacklisted"))
    ∧ (tok.claims.pur = some pv → pv ≠ "refresh" → pv ≠ "api_key" →
      (validate_jwt env tok aud purpose).result
        ≠ .error (.jwtError "token is blacklisted")) := by
  constructor
  · intro hh hsig hiss hopenid hexp hpur hrev hjti hbl
    have hmem : env.baseUrl ∈ trustedIssuers env := by
      unfold trustedIssuers
      rcases env.oidcIssuer with _ | s
      · simp
      · by_cases hs : s = "" <;> simp [hs]
    have hlib : authutilsValidate tok (audOrDefault none)
        (trustedIssuers env) env.now = .ok tok.claims :=
      authutilsValidate_success tok _ _ _ hsig env.baseUrl hiss hmem
        "openid" hopenid (by simp [audOrDefault]) hexp
    have hibl : is_blacklisted env j = true := by
      unfold is_blacklisted
      exact List.elem_iff.mpr hbl
    have hcheck : checkPurAndBlacklist env tok.claims
        = .error (.jwtError "token is blacklisted") := by
      unfold checkPurAndBlacklist
      rw [hpur, hjti]
      simp [hrev, hibl]
    have hpost : postLibraryChecks env none tok.claims
        = .error (.jwtError "token is blacklisted") := by
      unfold postLibraryChecks
      simpa using hcheck
    simp [validate_jwt, hh, hlib, hpost]
  · intro hpur h1 h2 hcontra
    rcases hh : tok.headerOk with _ | _
    · rw [show (validate_jwt env tok aud purpose).result
          = .error (.jwtError "Invalid token : header parse failed")
          from by simp [validate_jwt, hh]] at hcontra
      have : "Invalid token : header parse failed" = "token is blacklisted" := by
        injection (Except.error.inj hcontra)
      exact absurd this (by decide)
    · rcases hlib : authutilsValidate tok (audOrDefault aud)
          (trustedIssuers env) env.now with e | c
      · rw [show (validate_jwt env tok aud purpose).result
            = .error .unboundLocal from by simp [validate_jwt, hh, hlib]]
          at hcontra
        exact absurd (Except.error.inj hcontra) (by simp)
      · have hc : c = tok.claims :=
          authutilsValidate_ok_eq tok _ _ _ c hlib
        have hres : (validate_jwt env tok aud purpose).result
            = postLibraryChecks env purpose tok.claims := by
          simp [validate_jwt, hh, hlib, hc]
        rw [hres] at hcontra
        rcases postLibraryChecks_cases env purpose tok.claims with hcase | ⟨m, hm⟩
        · rw [hcase,
            checkPurAndBlacklist_other_pur env tok.claims pv hpur h1 h2]
            at hcontra
          cases hcontra
        · rw [hm] at hcontra
          exact absurd (Except.error.inj hcontra) (by simp)

/-- C2 witness: the blacklist rejection instantiated at `envW` and the
blacklisted refresh token `tokWRefresh`. -/
theorem c2_witness :
    (validate_jwt envW tokWRefresh none none).result
      = .error (.jwtError "token is blacklisted") :=
  (c2_blacklist_rejection envW tokWRefresh none none "refresh" "jtiRevoked").1
    rfl rfl rfl (by decide) (by decide) rfl (Or.inl rfl) rfl (by decide)

/-- C5: every key-resolution request `validate_jwt` issues for a token
whose unverified issuer equals the broker's own `BASE_URL` carries
`attempt_refresh = false`, and a request carrying `attempt_refresh = true`
is only ever issued for an issuer differing from `BASE_URL`. -/
theorem c5_no_refresh_for_self_issued (env : Env) (tok : Token)
    (aud : Option (List String)) (purpose : Option String) (kf : KeyFetch)
    (hmem : kf ∈ (validate_jwt env tok aud purpose).keyFetches) :
    (kf.iss = some env.baseUrl → kf.attemptRefresh = false)
    ∧ (kf.attemptRefresh = true → kf.iss ≠ some env.baseUrl) := by
  rcases hh : tok.headerOk with _ | _
  · simp [validate_jwt, hh] at hmem
  · have hkf : kf = ⟨tok.kid, tok.claims.iss,
        decide (tok.claims.iss ≠ some env.baseUrl)⟩ := by
      rcases hlib : authutilsValidate tok (audOrDefault aud)
          (trustedIssuers env) env.now with e | c
      · simpa [validate_jwt, hh, hlib] using hmem
      · simpa [validate_jwt, hh, hlib] using hmem
    subst hkf
    constructor
    · intro hiss
      have hiss' : tok.claims.iss = some env.baseUrl := hiss
      simp [hiss']
    · intro href
      exact of_decide_eq_true href

/-- C5 witness: for the self-issued token `tokWRefresh` the single key
fetch carries `attempt_refresh = false`. -/
theorem c5_witness :
    ((⟨some "kid1", some "https://me", false⟩ : KeyFetch).iss
        = some envW.baseUrl →
      (⟨some "kid1", some "https://me", false⟩ : KeyFetch).attemptRefresh
        = false)
    ∧ ((⟨some "kid1", some "https://me", false⟩ : KeyFetch).attemptRefresh
        = true →
      (⟨some "kid1", some "https://me", false⟩ : KeyFetch).iss
        ≠ some envW.baseUrl) :=
  c5_no_refresh_for_self_issued envW tokWRefresh none none
    ⟨some "kid1", some "https://me", false⟩ (by decide)

/-- C10: `check_csrf` performs no rejection when the request carries an
Authorization header, or the session holds no (nonempty) username, or the
method is GET, or CSRF protection is configured off; conversely any
rejection implies a non-GET method, no Authorization header, a
cookie-session (nonempty username) and CSRF protection enabled. -/
theorem c10_csrf_guard_scope (cfg : CsrfCfg) (req : CsrfRequest)
    (sess : CsrfSession) :
    ((req.hasAuthHeader = true ∨ truthyOptStr sess.username = false
        ∨ req.method = "GET" ∨ cfg.enableCsrfProtection = some false)
      → check_csrf cfg req sess = none)
    ∧ (check_csrf cfg req sess ≠ none →
        req.method ≠ "GET" ∧ req.hasAuthHeader = false
        ∧ truthyOptStr sess.username = true
        ∧ cfg.enableCsrfProtection.getD true = true) := by
  constructor
  · rintro (h | h | h | h)
    · simp [check_csrf, h]
    · simp [check_csrf, h]
    · by_cases ha : req.hasAuthHeader
      · simp [check_csrf, ha]
      · by_cases hu : truthyOptStr sess.username
        · by_cases hen : cfg.enableCsrfProtection.getD true
          · simp [check_csrf, ha, hu, hen, h]
          · simp [check_csrf, ha, hu, hen]
        · simp [check_csrf, hu]
    · by_cases ha : req.hasAuthHeader
      · simp [check_csrf, ha]
      · by_cases hu : truthyOptStr sess.username
        · simp [check_csrf, ha, hu, h]
        · simp [check_csrf, hu]
  · intro hrej
    by_cases ha : req.hasAuthHeader
    · exact absurd (by simp [check_csrf, ha]) hrej
    · by_cases hu : truthyOptStr sess.username
      · by_cases hen : cfg.enableCsrfProtection.getD true
        · by_cases hm : req.method = "GET"
          · exact absurd (by simp [check_csrf, ha, hu, hen, hm]) hrej
          · exact ⟨hm, by simpa using ha, hu, hen⟩
        · exact absurd (by simp [check_csrf, ha, hu, hen]) hrej
      · exact absurd (by simp [check_csrf, hu]) hrej

/-- C10 witness: a GET request with no other exempting condition passes the
guard. -/
theorem c10_witness :
    check_csrf ⟨none⟩ ⟨"GET", false, none, none, none⟩ ⟨some "alice"⟩
      = none :=
  (c10_csrf_guard_scope ⟨none⟩ ⟨"GET", false, none, none, none⟩
    ⟨some "alice"⟩).1 (Or.inr (Or.inr (Or.inl rfl)))

/-- C4 counterexample: a POST request with no Authorization header and no
CSRF cookie, header or referer is not rejected when the session holds no
username — `check_csrf` returns before any verification, so the claimed
unconditional rejection of unauthenticated non-GET requests without the
cookie/header pair does not hold. -/
theorem c4_counterexample :
    check_csrf ⟨none⟩ ⟨"POST", false, none, none, none⟩ ⟨none⟩ = none
    ∧ ("POST" ≠ "GET") := by
  decide

/-- C4 amended: a non-GET request with no Authorization header, arriving on
a cookie session (nonempty username) with CSRF protection enabled, that
does not present a truthy csrftoken cookie and x-csrf-token header of equal
value together with a truthy referer header, is rejected with an error
before any handler or session mutation runs. -/
theorem c4_csrf_rejection (cfg : CsrfCfg) (req : CsrfRequest)
    (sess : CsrfSession) (hm : req.method ≠ "GET")
    (ha : req.hasAuthHeader = false)
    (hu : truthyOptStr sess.username = true)
    (hen : cfg.enableCsrfProtection.getD true = true)
    (hfail : (truthyOptStr req.csrfCookie && truthyOptStr req.csrfHeaderTok
        && (req.csrfCookie == req.csrfHeaderTok)
        && truthyOptStr req.referer) = false) :
    ∃ e, check_csrf cfg req sess = some e := by
  rcases hr : req.referer with _ | r
  · exact ⟨.typeError, by simp [check_csrf, ha, hu, hen, hm, hr]⟩
  · refine ⟨.userError "CSRF verification failed. Request aborted", ?_⟩
    simp [check_csrf, ha, hu, hen, hm, hr]
    intro h1 h2 h3
    rw [hr] at hfail
    simpa [h1, h2, h3] using hfail

/-- C4 amended, witnessed at a POST request on a logged-in cookie session
presenting a cookie but no matching header. -/
theorem c4_witness :
    ∃ e, check_csrf ⟨none⟩
        ⟨"POST", false, none, some "tokval", some "https://me/page"⟩
        ⟨some "alice"⟩ = some e :=
  c4_csrf_rejection ⟨none⟩
    ⟨"POST", false, none, some "tokval", some "https://me/page"⟩
    ⟨some "alice"⟩ (by decide) rfl (by decide) rfl (by decide)

theorem pyStartswith_append (r x : String) : pyStartswith (r ++ x) r = true := by
  unfold pyStartswith
  have hd : (r ++ x).data = r.data ++ x.data := by
    cases r; cases x; rfl
  rw [hd]
  exact List.isPrefixOf_iff_prefix.mpr (List.prefix_append _ _)

/-- C9 counterexample: the supplied next value `"httpevil.example"` is not
an absolute http or https URL, yet `logout_endpoint` honors it verbatim as
the redirect target — the code tests only the prefixes `https`/`http`. -/
theorem c9_counterexample :
    logout_endpoint ⟨some "https://me", some "https://me"⟩
        (some "httpevil.example") = "httpevil.example"
    ∧ specAbsoluteHttpUrl "httpevil.example" = false := by
  decide

/-- C9 amended: the caller-supplied next value is honored exactly when it
starts with the prefix `https` or `http` (a plain prefix test, satisfied by
non-URL strings such as `httpevil.example` too); any other supplied value
is replaced by `build_redirect_url(ROOT_URL, value)`, whose result starts
with the configured root; and an absent next value behaves as if the
configured `BASE_URL` had been supplied. -/
theorem c9_logout_redirect (cfg : LogoutCfg) (s : String) :
    ((pyStartswith s "https" || pyStartswith s "http") = true →
        logout_endpoint cfg (some s) = s)
    ∧ ((pyStartswith s "https" || pyStartswith s "http") = false →
        logout_endpoint cfg (some s)
          = build_redirect_url (cfg.rootUrl.getD "") s
        ∧ pyStartswith (logout_endpoint cfg (some s))
            (cfg.rootUrl.getD "") = true)
    ∧ logout_endpoint cfg none
        = logout_endpoint cfg (some (cfg.baseUrl.getD "")) := by
  refine ⟨?_, ?_, rfl⟩
  · intro h
    simp only [logout_endpoint, Option.getD_some]
    rw [h]
    rfl
  · intro h
    have hres : logout_endpoint cfg (some s)
        = build_redirect_url (cfg.rootUrl.getD "") s := by
      simp only [logout_endpoint, Option.getD_some]
      rw [h]
      rfl
    refine ⟨hres, ?_⟩
    rw [hres]
    unfold build_redirect_url
    exact pyStartswith_append _ _

/-- C9 amended, witnessed at a relative path: the result is rooted at
`ROOT_URL`. -/
theorem c9_witness :
    logout_endpoint ⟨some "https://me", some "https://me"⟩ (some "welcome")
      = build_redirect_url "https://me" "welcome" :=
  ((c9_logout_redirect ⟨some "https://me", some "https://me"⟩
    "welcome").2.1 (by decide)).1
